import Mathlib

/-!
Shallow embedding of the PalCON-Discord RCON client (`client.py`) and proofs
about its parsing, sampling and status-aggregation logic.

Python strings are modelled as Lean `String`s; `str.split(sep)` for a
one-character separator, `sep.join`, and slicing are re-implemented below with
Python's exact semantics so that every definition evaluates in the kernel.
Python exceptions are modelled by `Except PyErr`; a `PyErr` value means the
Python code raises at that point.
-/

/-- The kinds of Python runtime errors the embedded code can raise. -/
inductive PyErr where
  | typeError
  | unboundLocalError
  | transportError
  deriving DecidableEq, Repr

instance {ε α : Type} [DecidableEq ε] [DecidableEq α] : DecidableEq (Except ε α) :=
  fun a b =>
    match a, b with
    | .ok x, .ok y =>
        if h : x = y then isTrue (by rw [h])
        else isFalse (by intro hc; injection hc; contradiction)
    | .ok _, .error _ => isFalse (fun hc => Except.noConfusion hc)
    | .error _, .ok _ => isFalse (fun hc => Except.noConfusion hc)
    | .error x, .error y =>
        if h : x = y then isTrue (by rw [h])
        else isFalse (by intro hc; injection hc; contradiction)

/-- Python `s.split(sep)` for a single-character separator, on the character
list: splitting never drops empty pieces (`"".split(c) == ['']`). -/
def pySplitAux (sep : Char) : List Char → List Char → List String
  | [], acc => [String.mk acc.reverse]
  | c :: rest, acc =>
      if c = sep then String.mk acc.reverse :: pySplitAux sep rest []
      else pySplitAux sep rest (c :: acc)

/-- Python `s.split(sep)` for a one-character separator. -/
def pySplit (s : String) (sep : Char) : List String :=
  pySplitAux sep s.data []

/-- Python `sep.join(xs)`. -/
def pyJoin (sep : String) : List String → String
  | [] => ""
  | [x] => x
  | x :: xs => x ++ sep ++ pyJoin sep xs

/-- Python `s[a:b]` for non-negative bounds (clamping, empty when `a ≥ b`). -/
def pySlice (s : String) (a b : Nat) : String :=
  String.mk ((s.data.take b).drop a)

/-- Python `s[a:]` for a non-negative bound. -/
def pySliceFrom (s : String) (a : Nat) : String :=
  String.mk (s.data.drop a)

/-- A Python `dict[str, str]` as an insertion-ordered association list:
`d[k] = v` updates the value in place when the key exists, else appends. -/
def dictInsert (d : List (String × String)) (k v : String) :
    List (String × String) :=
  if d.any (fun p => p.1 = k) then
    d.map (fun p => if p.1 = k then (k, v) else p)
  else
    d ++ [(k, v)]

/-- Python `d.get(k, "")`. -/
def dictGet (d : List (String × String)) (k : String) : String :=
  match d.find? (fun p => p.1 = k) with
  | some p => p.2
  | none => ""

/-- `client.py`: the `GENERIC_ERROR` message set in `Client.__init__`. -/
def GENERIC_ERROR : String :=
  "Unable to process your request (server did not respond)"

/-- Result of `Client.online`: the player dict, the error message, and the
field lists that `log.error` records for malformed lines. -/
structure RosterResult where
  players : List (String × String)
  error_message : String
  logs : List (List String)
  deriving DecidableEq, Repr

/-- The `for line in lines` loop body of `Client.online`: split each line on
commas; fewer than 3 fields logs the fields and `break`s; otherwise the ign is
field 0 and the steam id field 2, except that with more than 3 fields the ign
is the comma-rejoin of all but the last two and the steam id the last field. -/
def onlineLines : List String → List (String × String) → RosterResult
  | [], players => ⟨players, "", []⟩
  | line :: rest, players =>
      let words := pySplit line ','
      if words.length < 3 then
        ⟨players, "", [words]⟩
      else
        let ign := words.headD ""
        let steam_id := words.getD 2 ""
        let ign := if words.length > 3 then
            pyJoin "," (words.take (words.length - 2)) else ign
        let steam_id := if words.length > 3 then
            words.getLastD "" else steam_id
        onlineLines rest (dictInsert players steam_id ign)

/-- `Client.online` on the raw `ShowPlayers` response: an empty response
yields the generic error; otherwise the header line and the trailing empty
line are discarded (`res.split('\n')[1:-1]`) and the rest parsed. -/
def online (res : String) : RosterResult :=
  if res = "" then ⟨[], GENERIC_ERROR, []⟩
  else onlineLines (((pySplit res '\n').drop 1).dropLast) []

/-- `Client.get_ign_from_steam_id`: `players.get(steam_id, "")`. -/
def get_ign_from_steam_id (res : String) (steam_id : String) : String :=
  dictGet (online res).players steam_id

/-- `data.py`'s `ServerInfo` record. -/
structure ServerInfo where
  version : String
  name : String
  deriving DecidableEq, Repr

/-- The scan loop of `get_indices_from_info`: every `'['` updates the version
start index to its position plus one; the first `']'` fixes the end index and
the name index (`']'` position plus two) and breaks. `i` is the absolute index
of the list head, `vs` the version start index accumulated so far. -/
def getIndicesAux : List Char → Nat → Int → Int × Int × Int
  | [], _, vs => (vs, -1, -1)
  | c :: rest, i, vs =>
      let vs := if c = '[' then (i : Int) + 1 else vs
      if c = ']' then (vs, (i : Int), (i : Int) + 2)
      else getIndicesAux rest (i + 1) vs

/-- `get_indices_from_info(res)`: returns
`(version_number_start_index, version_number_end_index, name_index)`,
each `-1` when not found. -/
def get_indices_from_info (res : String) : Int × Int × Int :=
  getIndicesAux res.data 0 (-1)

/-- The response-parsing part of `Client.info`: on a falsy (empty) response
the generic error; on negative indices the unexpected-format error; otherwise
`ServerInfo(version=res[vs:ve], name=res[ni:])`. -/
def info_parse (res : String) : Option ServerInfo × String :=
  if res = "" then (none, GENERIC_ERROR)
  else
    let (vs, ve, ni) := get_indices_from_info res
    if vs < 0 ∨ ve < 0 ∨ ni < 0 then
      (none, "Unable to process your request (server response in unexpected format)")
    else
      (some ⟨pySlice res vs.toNat ve.toNat, pySliceFrom res ni.toNat⟩, "")

example : info_parse "[1.2.3] MyServer" = (some ⟨"1.2.3", "MyServer"⟩, "") := by decide
example : (info_parse "no brackets here").1 = none := by decide
example : (info_parse "[]x").1 = some ⟨"", ""⟩ := by decide
example : (info_parse "a[b[1]X").1 = some ⟨"1", ""⟩ := by decide
example : (info_parse "]oops[").1 = none := by decide

/-- Python `math.trunc` on an exact rational: truncation toward zero. -/
def mathTrunc (q : ℚ) : ℤ := q.num.tdiv q.den

/-- The correction loop of `check_cpu_usage`:
`for i in range(n): cpu /= 2; if cpu <= 100: break`. -/
def halveLoop : ℚ → Nat → ℚ
  | cpu, 0 => cpu
  | cpu, n + 1 =>
      let cpu := cpu / 2
      if cpu ≤ 100 then cpu else halveLoop cpu n

/-- `check_cpu_usage`, parameterized by the core count determined from the
affinity query or its fallback and by the raw `cpu_percent` sample: clamp the
core count to 4, normalize, halve up to 10 times while above 100, truncate. -/
def check_cpu_usage (core_count : ℕ) (cpu_usage_raw : ℚ) : ℤ :=
  let core_count := if core_count > 4 then 4 else core_count
  let cpu_usage := cpu_usage_raw / (core_count : ℚ)
  let cpu_usage := if cpu_usage > 100 then halveLoop cpu_usage 10 else cpu_usage
  mathTrunc cpu_usage

/-- The CPU line of `Client.check_current_resources` (lines 230-237). -/
def cpu_usage_line (ep ef eu : String) (cpu_usage : ℤ) : String :=
  if cpu_usage < 50 then ep ++ " - CPU " ++ toString cpu_usage ++ "% used"
  else if cpu_usage < 80 then ep ++ " - CPU " ++ toString cpu_usage ++ "% used"
  else if cpu_usage < 100 then ef ++ " - CPU " ++ toString cpu_usage ++ "% used"
  else eu ++ " - CPU: Unknown"

/-- The RAM line of `Client.check_current_resources` (lines 246-252),
with the human-readable `convert_size` rendering passed in as `formatted`. -/
def ram_line (ep ef eu : String) (free : ℕ) (formatted : String) : String :=
  if free ≤ 1073741824 then ef ++ " - RAM: " ++ formatted ++ " available"
  else if free > 1073741824 then ep ++ " - RAM: " ++ formatted ++ " available"
  else eu ++ "- RAM: Unknown."

/-- The OS-process observations `check_current_resources` consumes. -/
structure ProcEnv where
  is_running : Bool
  relocate_found : Bool
  core_count : ℕ
  cpu_percent_raw : ℚ
  mem_free : ℕ
  mem_formatted : String

/-- What `Client.check_current_resources` returns: either the stray
`(None, None)` tuple of the process-not-found early return, or the built
resource-lines string. -/
inductive ResourcesResult where
  | notFound
  | lines (res : String)
  deriving DecidableEq, Repr

/-- `Client.check_current_resources`: if the process is gone and cannot be
re-located by name, return the `(cpu_usage, ram_available)` tuple (both
`None`); otherwise build the CPU and/or RAM lines. -/
def check_current_resources (ep ef eu : String) (env : ProcEnv)
    (check_cpu check_ram : Bool) : ResourcesResult :=
  if env.is_running = false ∧ env.relocate_found = false then .notFound
  else
    let res := ""
    let res := if check_cpu then
        cpu_usage_line ep ef eu (check_cpu_usage env.core_count env.cpu_percent_raw)
      else res
    let res := if check_ram then
        (if check_cpu then res ++ "\n" else res) ++
          ram_line ep ef eu env.mem_free env.mem_formatted
      else res
    .lines res

/-- Outcome of one external HTTP GET in `fetch_current_ip`. -/
inductive HttpResult where
  | success (text : String)
  | timeout
  | requestError
  deriving DecidableEq, Repr

/-- `fetch_current_ip(website_link, expected_ip)`, parameterized by the HTTP
outcome. On success the response text is compared with the expected IP and
then length-checked (over 45 characters resets both to `None`). On a timeout
or request exception the handler sets `ip_match = None`, but `current_ip` is
still `None` when `len(current_ip)` runs, so a `TypeError` is raised. -/
def fetch_current_ip (http : HttpResult) (expected_ip : String) :
    Except PyErr (Option String × Option Bool) :=
  match http with
  | .success t =>
      if t.length > 45 then .ok (none, none)
      else .ok (some t, some (t == expected_ip))
  | .timeout => .error .typeError
  | .requestError => .error .typeError

/-- Python `f"{x}"` for an optional string (`None` prints as `"None"`). -/
def pyStrOpt : Option String → String
  | none => "None"
  | some s => s

/-- `Client.check_current_ip`: primary lookup, retry on anything but a match,
pick the retry result only when it is a match, then render the line. -/
def check_current_ip (ep ef eu expected_ip : String) (http1 http2 : HttpResult) :
    Except PyErr String := do
  let (current_ip, ip_match) ← fetch_current_ip http1 expected_ip
  let ip_match ←
    if ip_match ≠ some true then do
      let (_, ip_match_retry) ← fetch_current_ip http2 expected_ip
      pure (if ip_match_retry = some true then ip_match_retry else ip_match)
    else pure ip_match
  match ip_match with
  | some true => pure (ep ++ " - IP address")
  | some false => pure (ef ++ " - IP address\n- Changed to: " ++ pyStrOpt current_ip)
  | none => pure (eu ++ " - IP address\n- Couldn\x27t verify server IP.")

/-- Outcome of one `console.command(...)` call. -/
inductive SendResult where
  | ok (res : String)
  | raises
  deriving DecidableEq, Repr

/-- Observable outcome of one admin-command method: the value returned (or
the exception propagated), and whether `console.close()` was reached. -/
structure GatewayRun where
  result : Except PyErr String
  closed : Bool
  deriving DecidableEq, Repr

/-- The shared open/command/close/return shape of `Client.save`, `announce`,
`kick`, `ban`, `shutdown` and `force_stop`: no `try`/`finally`, so a raise
from `console.command` skips `console.close()` and propagates; an empty
response becomes `GENERIC_ERROR`. -/
def runCommand (send : SendResult) : GatewayRun :=
  match send with
  | .ok res => ⟨.ok (if res ≠ "" then res else GENERIC_ERROR), true⟩
  | .raises => ⟨.error .transportError, false⟩

/-- `Client.save`, over a transport mapping command text to an outcome. -/
def save (transport : String → SendResult) : GatewayRun :=
  runCommand (transport "Save")

/-- `Client.announce(message)`. -/
def announce (transport : String → SendResult) (message : String) : GatewayRun :=
  runCommand (transport ("Broadcast " ++ message))

/-- `Client.kick(steam_id)`. -/
def kick (transport : String → SendResult) (steam_id : String) : GatewayRun :=
  runCommand (transport ("KickPlayer " ++ steam_id))

/-- `Client.ban(steam_id)`. -/
def ban (transport : String → SendResult) (steam_id : String) : GatewayRun :=
  runCommand (transport ("BanPlayer " ++ steam_id))

/-- `Client.shutdown(seconds, message)`. -/
def shutdown (transport : String → SendResult) (seconds message : String) : GatewayRun :=
  runCommand (transport ("Shutdown " ++ seconds ++ " " ++ message))

/-- `Client.force_stop()`. -/
def force_stop (transport : String → SendResult) : GatewayRun :=
  runCommand (transport "DoExit")

/-- Outcome of the `Info` round trip inside `Client.info`: the transport may
raise, or deliver a raw response string (possibly empty). -/
inductive InfoProbe where
  | raises
  | response (res : String)
  deriving DecidableEq, Repr

/-- `Client.info`: a transport raise propagates; otherwise the response is
parsed by `info_parse`. -/
def info (p : InfoProbe) : Except PyErr (Option ServerInfo × String) :=
  match p with
  | .raises => .error .transportError
  | .response res => .ok (info_parse res)

/-- An element of `description_list` in `status_checks`: a string, or the
`(None, None)` tuple appended when `check_current_resources` found no
process. -/
inductive DescItem where
  | str (s : String)
  | noneTuple
  deriving DecidableEq, Repr

/-- Extract the strings of a description list, `none` if any element is not
a string. -/
def descStrings : List DescItem → Option (List String)
  | [] => some []
  | .str s :: rest => (descStrings rest).map (s :: ·)
  | .noneTuple :: _ => none

/-- Python `'\n'.join(description_list)`: raises `TypeError` when the list
holds a non-string element. -/
def joinDesc (items : List DescItem) : Except PyErr String :=
  match descStrings items with
  | some l => .ok (pyJoin "\n" l)
  | none => .error .typeError

/-- The configuration fields `status_checks` and its callees read. -/
structure Config where
  check_public_ip : Bool
  check_cpu : Bool
  check_ram : Bool
  embed_pass_emoji : String
  embed_fail_emoji : String
  embed_unknown_emoji : String
  expected_public_ip : String

/-- `Client.status_checks`: the info probe is wrapped in `try`/`except`, so a
transport raise yields the unavailable title, but a non-raising probe that
produced no `ServerInfo` leaves `embed_title` unassigned; the IP and resource
checks run outside the `try`; the description is joined before `embed_title`
is read, so a `noneTuple` in the list raises `TypeError` first, and an
unassigned title then raises `UnboundLocalError`. -/
def status_checks (cfg : Config) (infoP : InfoProbe) (http1 http2 : HttpResult)
    (env : ProcEnv) : Except PyErr (String × String) := do
  let (embed_title, dl) :=
    match info infoP with
    | .error _ =>
        (some "Server is unavailable.",
         [DescItem.str "We couldn\x27t contact the server.\nhttps://palworld.statuspage.io/"])
    | .ok (server_info, _error_message) =>
        match server_info with
        | some si => (some "Server is online.", [DescItem.str (si.name ++ si.version)])
        | none => (none, [])
  let dl := if cfg.check_public_ip || cfg.check_cpu || cfg.check_ram then
      dl ++ [DescItem.str "\n[Checks]"] else dl
  let dl ← if cfg.check_public_ip then do
      let line ← check_current_ip cfg.embed_pass_emoji cfg.embed_fail_emoji
        cfg.embed_unknown_emoji cfg.expected_public_ip http1 http2
      pure (dl ++ [DescItem.str line])
    else pure dl
  let dl := if cfg.check_cpu || cfg.check_ram then
      match check_current_resources cfg.embed_pass_emoji cfg.embed_fail_emoji
          cfg.embed_unknown_emoji env cfg.check_cpu cfg.check_ram with
      | .notFound => dl ++ [DescItem.noneTuple]
      | .lines s => dl ++ [DescItem.str s]
    else dl
  let embed_description ← joinDesc dl
  match embed_title with
  | some t => pure (t, embed_description)
  | none => .error .unboundLocalError

example : check_cpu_usage 2 240 = 60 := by
  norm_num [check_cpu_usage, halveLoop, mathTrunc]
example : fetch_current_ip .timeout "1.2.3.4" = .error .typeError := by decide
example : check_current_ip "P" "F" "U" "1.2.3.4" .timeout (.success "1.2.3.4") =
    .error .typeError := by decide
example : check_current_ip "P" "F" "U" "1.2.3.4" (.success "1.2.3.4") .timeout =
    .ok "P - IP address" := by decide

example : status_checks ⟨false, false, false, "P", "F", "U", "ip"⟩ (.response "")
    .timeout .timeout ⟨true, true, 1, 0, 0, ""⟩ = .error .unboundLocalError := by decide
example : status_checks ⟨false, false, true, "P", "F", "U", "ip"⟩ (.response "[1] N")
    .timeout .timeout ⟨false, false, 1, 0, 0, ""⟩ = .error .typeError := by decide
example : status_checks ⟨false, false, true, "P", "F", "U", "ip"⟩ (.response "[1] N")
    .timeout .timeout ⟨true, false, 1, 0, 2000000000, "1.86 GB"⟩ =
    .ok ("Server is online.", "N1\n\n[Checks]\nP - RAM: 1.86 GB available") := by decide
example : status_checks ⟨false, false, false, "P", "F", "U", "ip"⟩ .raises
    .timeout .timeout ⟨true, true, 1, 0, 0, ""⟩ =
    .ok ("Server is unavailable.",
      "We couldn\x27t contact the server.\nhttps://palworld.statuspage.io/") := by decide

example : pySplit "header\nAlice,100,765\n" '\n' = ["header", "Alice,100,765", ""] := by decide

/-! ## Spec-side definitions for the refinement claims -/

/-- Spec wording of one roster line's contribution: exactly 3 fields map the
third field (steam id) to the first (display name); more than 3 fields rejoin
all but the last two as the name and use the last as the steam id. -/
def rosterSpecStep (d : List (String × String)) (line : String) :
    List (String × String) :=
  let fields := pySplit line ','
  if fields.length = 3 then
    dictInsert d (fields.getD 2 "") (fields.headD "")
  else if fields.length > 3 then
    dictInsert d (fields.getLastD "") (pyJoin "," (fields.take (fields.length - 2)))
  else d

/-- Spec wording of the whole roster build over the data lines. -/
def rosterSpec (lines : List String) : List (String × String) :=
  lines.foldl rosterSpecStep []

/-! ## Roster lemmas -/

lemma onlineLines_cons_wf (line : String) (rest : List String)
    (players : List (String × String)) (h : 3 ≤ (pySplit line ',').length) :
    onlineLines (line :: rest) players =
      onlineLines rest (rosterSpecStep players line) := by
  by_cases h3 : (pySplit line ',').length = 3
  · have hng : ¬ (pySplit line ',').length > 3 := by omega
    have hnl : ¬ (pySplit line ',').length < 3 := by omega
    simp only [onlineLines, rosterSpecStep, if_neg hnl, if_neg hng, if_pos h3]
  · have hg : (pySplit line ',').length > 3 := by omega
    have hnl : ¬ (pySplit line ',').length < 3 := by omega
    simp only [onlineLines, rosterSpecStep, if_neg hnl, if_pos hg, if_neg h3]

lemma onlineLines_wf (lines : List String) :
    ∀ players : List (String × String),
    (∀ l ∈ lines, 3 ≤ (pySplit l ',').length) →
    onlineLines lines players = ⟨lines.foldl rosterSpecStep players, "", []⟩ := by
  induction lines with
  | nil => intro players _; rfl
  | cons line rest ih =>
      intro players h
      rw [onlineLines_cons_wf line rest players (h line (by simp)),
        List.foldl_cons]
      exact ih _ (fun l hl => h l (by simp [hl]))

lemma onlineLines_break (bad : String) (rest : List String)
    (hbad : (pySplit bad ',').length < 3) :
    ∀ players : List (String × String),
    onlineLines (bad :: rest) players = ⟨players, "", [pySplit bad ',']⟩ := by
  intro players
  simp only [onlineLines, if_pos hbad]

lemma dictGet_dictInsert (d : List (String × String)) (k v : String) :
    dictGet (dictInsert d k v) k = v := by
  unfold dictInsert dictGet
  by_cases hany : d.any (fun p => p.1 = k) = true
  · rw [if_pos hany, List.find?_map]
    have hcomp : ((fun q : String × String => decide (q.1 = k)) ∘
        (fun p => if p.1 = k then (k, v) else p)) =
        fun q : String × String => decide (q.1 = k) := by
      funext q
      by_cases hq : q.1 = k <;> simp [hq]
    rw [hcomp]
    obtain ⟨x, hx, hpx⟩ := List.any_eq_true.mp hany
    have hsome : (d.find? (fun q => decide (q.1 = k))).isSome :=
      List.find?_isSome.mpr ⟨x, hx, hpx⟩
    obtain ⟨y, hy⟩ := Option.isSome_iff_exists.mp hsome
    have hyk : y.1 = k := by simpa using List.find?_some hy
    rw [hy]
    simp [hyk]
  · rw [if_neg hany, List.find?_append]
    have hnone : d.find? (fun q => decide (q.1 = k)) = none := by
      rw [List.find?_eq_none]
      exact fun x hx hpx => hany (List.any_eq_true.mpr ⟨x, hx, hpx⟩)
    rw [hnone]
    simp

example : (online "header\nAlice,100,765\n").players = [("765", "Alice")] := by decide
example : (online "h\nBob,Jr,200,76562\n").players = [("76562", "Bob,Jr")] := by decide
example : online "h\nAlice,100,765\nBad,1\nBob,1,2\n" =
    ⟨[("765", "Alice")], "", [["Bad", "1"]]⟩ := by decide
example : get_ign_from_steam_id "" "765" = "" := by decide

/-! ## Claim theorems -/

/-- C1: the claim says an HTTP timeout or transport error makes the IP check
return the Unknown classification without an uncaught exception. In the code
the exception handlers set `ip_match = None` but leave `current_ip = None`,
so the subsequent `len(current_ip)` raises `TypeError`, which propagates out
of `fetch_current_ip` and `check_current_ip`. -/
theorem ip_check_timeout_crash :
    fetch_current_ip HttpResult.timeout "1.2.3.4" = Except.error PyErr.typeError ∧
    fetch_current_ip HttpResult.requestError "1.2.3.4" = Except.error PyErr.typeError ∧
    check_current_ip "P" "F" "U" "1.2.3.4" HttpResult.timeout
      (HttpResult.success "1.2.3.4") = Except.error PyErr.typeError := by decide

/-- C2: the claim says any failure of the info probe (transport error, parse
error, or empty response) yields the unavailable title and a report. In the
code only a transport raise assigns the unavailable title; a probe returning
no `ServerInfo` (empty response or parse error) leaves `embed_title`
unassigned, and `return embed_title, ...` raises `UnboundLocalError`. -/
theorem status_checks_unassigned_title_crash :
    status_checks ⟨false, false, false, "P", "F", "U", "1.2.3.4"⟩
        (InfoProbe.response "") HttpResult.timeout HttpResult.timeout
        ⟨true, true, 1, 0, 0, ""⟩ = Except.error PyErr.unboundLocalError ∧
    status_checks ⟨false, false, false, "P", "F", "U", "1.2.3.4"⟩
        (InfoProbe.response "no brackets here") HttpResult.timeout
        HttpResult.timeout ⟨true, true, 1, 0, 0, ""⟩ =
      Except.error PyErr.unboundLocalError ∧
    status_checks ⟨false, false, false, "P", "F", "U", "1.2.3.4"⟩
        InfoProbe.raises HttpResult.timeout HttpResult.timeout
        ⟨true, true, 1, 0, 0, ""⟩ =
      Except.ok ("Server is unavailable.",
        "We couldn\x27t contact the server.\nhttps://palworld.statuspage.io/") ∧
    status_checks ⟨false, false, false, "P", "F", "U", "1.2.3.4"⟩
        (InfoProbe.response "[1.2.3] MyServer") HttpResult.timeout
        HttpResult.timeout ⟨true, true, 1, 0, 0, ""⟩ =
      Except.ok ("Server is online.", "MyServer1.2.3") := by decide

/-- C9: the claim says that when the tracked process is gone and cannot be
re-located, the resource lines are omitted and the rest of the report is
still produced. In the code `check_current_resources` returns the tuple
`(None, None)` in that case, `status_checks` appends it to the description
list, and `'\n'.join(...)` then raises `TypeError`, so no report at all is
produced. -/
theorem lost_process_report_crash :
    check_current_resources "P" "F" "U" ⟨false, false, 1, 0, 0, ""⟩ false true =
      ResourcesResult.notFound ∧
    status_checks ⟨false, false, true, "P", "F", "U", "1.2.3.4"⟩
        (InfoProbe.response "[1.2.3] MyServer") HttpResult.timeout
        HttpResult.timeout ⟨false, false, 1, 0, 0, ""⟩ =
      Except.error PyErr.typeError := by decide

/-- C3 counterexample: a roster response with a malformed line. The claim
says a non-empty error signal carrying the offending fields is returned
alongside the partial results; the code stops and keeps the partial results,
but the returned `error_message` is the empty string (the fields only reach
the log). -/
theorem roster_malformed_cex :
    online "header\nAlice,100,765\nBad,1\nBob,1,2\n" =
      ⟨[("765", "Alice")], "", [["Bad", "1"]]⟩ ∧
    (online "header\nAlice,100,765\nBad,1\nBob,1,2\n").error_message = "" := by
  decide

/-- C3 amended: for a response whose data lines are well-formed up to a
malformed line (fewer than 3 comma fields), `online` stops at the malformed
line, returns exactly the entries parsed before it, logs the offending
line's field list, and returns an EMPTY error message (no ParseError value
is surfaced to the caller). -/
theorem roster_malformed_partial (res : String) (pre : List String)
    (bad : String) (rest : List String) (hres : res ≠ "")
    (hsplit : ((pySplit res '\n').drop 1).dropLast = pre ++ bad :: rest)
    (hpre : ∀ l ∈ pre, 3 ≤ (pySplit l ',').length)
    (hbad : (pySplit bad ',').length < 3) :
    online res = ⟨rosterSpec pre, "", [pySplit bad ',']⟩ := by
  unfold online
  rw [if_neg hres, hsplit]
  have aux : ∀ (p : List String) (players : List (String × String)),
      (∀ l ∈ p, 3 ≤ (pySplit l ',').length) →
      onlineLines (p ++ bad :: rest) players =
        ⟨p.foldl rosterSpecStep players, "", [pySplit bad ',']⟩ := by
    intro p
    induction p with
    | nil => intro players _; exact onlineLines_break bad rest hbad players
    | cons line tail ih =>
        intro players h
        rw [List.cons_append,
          onlineLines_cons_wf line _ players (h line (by simp)),
          List.foldl_cons]
        exact ih _ (fun l hl => h l (by simp [hl]))
  exact aux pre [] hpre

/-- C3 witness: the amended theorem applied to a concrete response. -/
theorem roster_malformed_partial_witness :
    online "header\nAlice,100,765\nBad,1\nBob,1,2\n" =
      ⟨rosterSpec ["Alice,100,765"], "", [pySplit "Bad,1" ',']⟩ :=
  roster_malformed_partial _ ["Alice,100,765"] "Bad,1" ["Bob,1,2"]
    (by decide) (by decide) (by decide) (by decide)

/-- C5: on a response whose data lines all have at least 3 comma fields,
`online` discards the header and trailing empty line and builds exactly the
roster described by the spec (3 fields: third field keys the first; more
than 3: all but the last two rejoined with commas keyed by the last), with
no error and no log; and inserting an existing steam id overwrites the
earlier value (last-write-wins). -/
theorem roster_wellformed_parse :
    (∀ res : String, res ≠ "" →
      online res = onlineLines (((pySplit res '\n').drop 1).dropLast) [])
    ∧ (∀ lines : List String, (∀ l ∈ lines, 3 ≤ (pySplit l ',').length) →
        onlineLines lines [] = ⟨rosterSpec lines, "", []⟩)
    ∧ (∀ (d : List (String × String)) (k v : String),
        dictGet (dictInsert d k v) k = v) := by
  refine ⟨?_, ?_, dictGet_dictInsert⟩
  · intro res h
    unfold online
    rw [if_neg h]
  · intro lines h
    exact onlineLines_wf lines [] h

/-- C5 witness: a roster with a 3-field line, a 4-field line (comma in the
display name) and a duplicate steam id whose later value wins. -/
theorem roster_wellformed_parse_witness :
    online "header\nAlice,100,765\nBob,Jr,200,76562\nCarol,5,765\n" =
      ⟨[("765", "Carol"), ("76562", "Bob,Jr")], "", []⟩ ∧
    dictGet (dictInsert [("765", "Alice")] "765" "Carol") "765" = "Carol" := by
  constructor
  · rw [roster_wellformed_parse.1 _ (by decide)]
    have e : ((pySplit "header\nAlice,100,765\nBob,Jr,200,76562\nCarol,5,765\n"
        '\n').drop 1).dropLast =
        ["Alice,100,765", "Bob,Jr,200,76562", "Carol,5,765"] := by decide
    rw [e, roster_wellformed_parse.2.1 _ (by decide)]
    decide
  · exact roster_wellformed_parse.2.2 [("765", "Alice")] "765" "Carol"

/-- C10: `get_ign_from_steam_id` returns the empty string for any steam id
that is not a key of the parsed roster, and in particular for an empty or
absent roster response. -/
theorem get_ign_missing :
    (∀ res sid : String, (∀ p ∈ (online res).players, p.1 ≠ sid) →
      get_ign_from_steam_id res sid = "")
    ∧ (∀ sid : String, get_ign_from_steam_id "" sid = "") := by
  constructor
  · intro res sid h
    unfold get_ign_from_steam_id dictGet
    have hnone : (online res).players.find? (fun p => decide (p.1 = sid)) = none := by
      rw [List.find?_eq_none]
      intro x hx
      simpa using h x hx
    rw [hnone]
  · intro sid
    rfl

/-- C10 witness: an online player roster not containing the queried id. -/
theorem get_ign_missing_witness :
    get_ign_from_steam_id "header\nAlice,100,765\n" "999" = "" :=
  get_ign_missing.1 _ "999" (by decide)

/-- C7 counterexample: a transport raise during the send. The claim says the
transport is closed unconditionally and the error mapped to the generic
failure; the code has no try/finally, so `close()` is skipped and the
exception propagates. -/
theorem gateway_raise_cex :
    save (fun _ => SendResult.raises) =
      ⟨Except.error PyErr.transportError, false⟩ ∧
    (save (fun _ => SendResult.raises)).closed = false ∧
    announce (fun _ => SendResult.raises) "hello" =
      ⟨Except.error PyErr.transportError, false⟩ := by decide

/-- C7 amended: every admin command opens the transport, sends the verb and
space-joined arguments, and on a delivered response closes the transport and
maps an empty response to the generic failure; but when the send raises, the
exception propagates to the caller and the transport is NOT closed. -/
theorem gateway_amended :
    (∀ res : String, res ≠ "" →
      runCommand (SendResult.ok res) = ⟨Except.ok res, true⟩)
    ∧ runCommand (SendResult.ok "") = ⟨Except.ok GENERIC_ERROR, true⟩
    ∧ runCommand SendResult.raises = ⟨Except.error PyErr.transportError, false⟩
    ∧ (∀ t, save t = runCommand (t "Save"))
    ∧ (∀ t msg, announce t msg = runCommand (t ("Broadcast " ++ msg)))
    ∧ (∀ t sid, kick t sid = runCommand (t ("KickPlayer " ++ sid)))
    ∧ (∀ t sid, ban t sid = runCommand (t ("BanPlayer " ++ sid)))
    ∧ (∀ t s m, shutdown t s m = runCommand (t ("Shutdown " ++ s ++ " " ++ m)))
    ∧ (∀ t, force_stop t = runCommand (t "DoExit")) := by
  refine ⟨?_, by decide, by decide, fun t => rfl, fun t m => rfl,
    fun t s => rfl, fun t s => rfl, fun t s m => rfl, fun t => rfl⟩
  intro res h
  simp [runCommand, h]

/-- C7 witness: the amended theorem applied to a concrete response. -/
theorem gateway_amended_witness :
    runCommand (SendResult.ok "OK") = ⟨Except.ok "OK", true⟩ :=
  gateway_amended.1 "OK" (by decide)

/-- C8 counterexample: a sampled CPU value of 90 (in the 80-100 band). The
claim says this renders a warn-but-pass line; the code renders it with the
fail emoji. -/
theorem cpu_warn_band_cex :
    cpu_usage_line "PASS" "FAIL" "UNKNOWN" 90 = "FAIL - CPU 90% used" ∧
    cpu_usage_line "PASS" "FAIL" "UNKNOWN" 90 ≠ "PASS - CPU 90% used" := by
  decide

/-- C8 amended: the resource check classifies CPU < 80 as pass, 80 <= CPU
< 100 as FAIL (not warn-but-pass), CPU >= 100 as unknown; free memory at or
below 2^30 bytes as fail and above as pass. -/
theorem resource_thresholds (ep ef eu : String) (cpu : ℤ) (free : ℕ)
    (fmt : String) :
    (cpu < 80 → cpu_usage_line ep ef eu cpu =
      ep ++ " - CPU " ++ toString cpu ++ "% used")
    ∧ (80 ≤ cpu → cpu < 100 → cpu_usage_line ep ef eu cpu =
      ef ++ " - CPU " ++ toString cpu ++ "% used")
    ∧ (100 ≤ cpu → cpu_usage_line ep ef eu cpu = eu ++ " - CPU: Unknown")
    ∧ (free ≤ 2 ^ 30 → ram_line ep ef eu free fmt =
      ef ++ " - RAM: " ++ fmt ++ " available")
    ∧ (2 ^ 30 < free → ram_line ep ef eu free fmt =
      ep ++ " - RAM: " ++ fmt ++ " available") := by
  have h30 : (2 : ℕ) ^ 30 = 1073741824 := by norm_num
  refine ⟨?_, ?_, ?_, ?_, ?_⟩
  · intro h
    unfold cpu_usage_line
    by_cases h50 : cpu < 50
    · rw [if_pos h50]
    · rw [if_neg h50, if_pos h]
  · intro h1 h2
    unfold cpu_usage_line
    rw [if_neg (by omega), if_neg (by omega), if_pos h2]
  · intro h
    unfold cpu_usage_line
    rw [if_neg (by omega), if_neg (by omega), if_neg (by omega)]
  · intro h
    rw [h30] at h
    unfold ram_line
    rw [if_pos h]
  · intro h
    rw [h30] at h
    unfold ram_line
    rw [if_neg (by omega), if_pos (by omega)]

/-- C8 witness: the amended theorem applied at concrete readings in each
band. -/
theorem resource_thresholds_witness :
    cpu_usage_line "P" "F" "U" 70 = "P - CPU 70% used" ∧
    cpu_usage_line "P" "F" "U" 90 = "F - CPU 90% used" ∧
    cpu_usage_line "P" "F" "U" 120 = "U - CPU: Unknown" ∧
    ram_line "P" "F" "U" 1000 "1000 B" = "F - RAM: 1000 B available" ∧
    ram_line "P" "F" "U" 2000000000 "1.86 GB" = "P - RAM: 1.86 GB available" := by
  refine ⟨?_, ?_, ?_, ?_, ?_⟩
  · exact ((resource_thresholds "P" "F" "U" 70 0 "").1 (by norm_num)).trans
      (by decide)
  · exact ((resource_thresholds "P" "F" "U" 90 0 "").2.1 (by norm_num)
      (by norm_num)).trans (by decide)
  · exact ((resource_thresholds "P" "F" "U" 120 0 "").2.2.1
      (by norm_num)).trans (by decide)
  · exact ((resource_thresholds "P" "F" "U" 0 1000 "1000 B").2.2.2.1
      (by norm_num)).trans (by decide)
  · exact ((resource_thresholds "P" "F" "U" 0 2000000000 "1.86 GB").2.2.2.2
      (by norm_num)).trans (by decide)

/-! ## CPU sampler lemmas (C6) -/

lemma mathTrunc_eq_floor (q : ℚ) (h : 0 ≤ q) : mathTrunc q = ⌊q⌋ := by
  rw [mathTrunc, Rat.floor_def]
  exact Int.tdiv_eq_ediv (Rat.num_nonneg.mpr h) (by positivity)

lemma halveLoop_spec : ∀ (n : ℕ) (q : ℚ), 100 < q →
    ∃ k, k ≤ n ∧ halveLoop q n = q / 2 ^ k ∧ (q / 2 ^ k ≤ 100 ∨ k = n) ∧
      ∀ j, j < k → 100 < q / 2 ^ j := by
  intro n
  induction n with
  | zero =>
      intro q _
      exact ⟨0, le_refl 0, by simp [halveLoop], Or.inr rfl,
        fun j hj => absurd hj (Nat.not_lt_zero j)⟩
  | succ n ih =>
      intro q hq
      by_cases hle : q / 2 ≤ 100
      · refine ⟨1, by omega, by simp [halveLoop, hle, pow_one], Or.inl (by
          simpa [pow_one] using hle), ?_⟩
        intro j hj
        have hj0 : j = 0 := by omega
        subst hj0
        simpa using hq
      · obtain ⟨k, hk, heq, hstop, hmono⟩ := ih (q / 2) (by linarith [not_le.mp hle])
        refine ⟨k + 1, by omega, ?_, ?_, ?_⟩
        · have hunf : halveLoop q (n + 1) = halveLoop (q / 2) n := by
            simp [halveLoop, hle]
          rw [hunf, heq, div_div, pow_succ']
        · rcases hstop with h | h
          · left
            rw [div_div, ← pow_succ'] at h
            exact h
          · right
            omega
        · intro j hj
          cases j with
          | zero => simpa using hq
          | succ j' =>
              have hm := hmono j' (by omega)
              rw [div_div, ← pow_succ'] at hm
              exact hm

/-- C6: `check_cpu_usage` clamps the core count at 4 (any count of at least
4 behaves like 4); when the normalized quotient is at most 100 it just
truncates it; when it exceeds 100 the correction loop halves it `k` times
for the least `k` (at most 10) bringing it to or below 100; and the spec's
concrete cases: raw 240 on a clamped count of 2 gives 60, and truncation of
60.7 gives 60 (not 61). -/
theorem sample_cpu_spec :
    (∀ (cc : ℕ) (raw : ℚ), 4 ≤ cc → check_cpu_usage cc raw = check_cpu_usage 4 raw)
    ∧ (∀ (cc : ℕ) (raw : ℚ), 0 < cc → cc ≤ 4 → raw / (cc : ℚ) ≤ 100 →
        check_cpu_usage cc raw = mathTrunc (raw / (cc : ℚ)))
    ∧ (∀ (cc : ℕ) (raw : ℚ), 0 < cc → cc ≤ 4 → 100 < raw / (cc : ℚ) →
        check_cpu_usage cc raw = mathTrunc (halveLoop (raw / (cc : ℚ)) 10))
    ∧ (∀ q : ℚ, 100 < q → ∃ k, k ≤ 10 ∧ halveLoop q 10 = q / 2 ^ k ∧
        (q / 2 ^ k ≤ 100 ∨ k = 10) ∧ ∀ j, j < k → 100 < q / 2 ^ j)
    ∧ check_cpu_usage 2 240 = 60
    ∧ mathTrunc (607 / 10) = 60 := by
  refine ⟨?_, ?_, ?_, halveLoop_spec 10, ?_, ?_⟩
  · intro cc raw h
    by_cases h4 : cc > 4
    · simp [check_cpu_usage, h4]
    · have hcc : cc = 4 := by omega
      rw [hcc]
  · intro cc raw h0 h4 hle
    have hc : ¬ (cc > 4) := by omega
    simp only [check_cpu_usage, if_neg hc, if_neg (not_lt.mpr hle)]
  · intro cc raw h0 h4 hgt
    have hc : ¬ (cc > 4) := by omega
    simp only [check_cpu_usage, if_neg hc, if_pos hgt]
  · norm_num [check_cpu_usage, halveLoop, mathTrunc]
  · rw [mathTrunc_eq_floor _ (by norm_num)]
    have h := Rat.floor_intCast_div_natCast 607 10
    norm_num at h ⊢

/-- C6 witness: the clamp, the no-correction branch and the halving loop
instantiated at concrete samples. -/
theorem sample_cpu_spec_witness :
    check_cpu_usage 6 240 = check_cpu_usage 4 240 ∧
    check_cpu_usage 4 240 = mathTrunc ((240 : ℚ) / ((4 : ℕ) : ℚ)) ∧

    check_cpu_usage 2 240 = mathTrunc (halveLoop ((240 : ℚ) / ((2 : ℕ) : ℚ)) 10) ∧
    (∃ k, k ≤ 10 ∧ halveLoop 240 10 = 240 / 2 ^ k ∧
      ((240 : ℚ) / 2 ^ k ≤ 100 ∨ k = 10) ∧
      ∀ j, j < k → 100 < (240 : ℚ) / 2 ^ j) :=
  ⟨sample_cpu_spec.1 6 240 (by norm_num),
   sample_cpu_spec.2.1 4 240 (by norm_num) (by norm_num) (by norm_num),
   sample_cpu_spec.2.2.1 2 240 (by norm_num) (by norm_num) (by norm_num),
   sample_cpu_spec.2.2.2.1 240 (by norm_num)⟩

/-! ## Server-info scan characterization (C4) -/

/-- Index of the first `']'` in the character list, if any. -/
def firstCloseIdx : List Char → Option ℕ
  | [] => none
  | c :: rest => if c = ']' then some 0 else (firstCloseIdx rest).map (· + 1)

/-- Index of the last `'['` in the character list, if any. -/
def lastOpenIdx : List Char → Option ℕ
  | [] => none
  | c :: rest =>
      match lastOpenIdx rest with
      | some k => some (k + 1)
      | none => if c = '[' then some 0 else none

/-- The version start index the scan accumulator reaches after traversing
`l`, when the traversal starts at absolute index `i` with accumulator
`vs`. -/
def vsOf (i : ℕ) (vs : Int) (l : List Char) : Int :=
  match lastOpenIdx l with
  | none => vs
  | some k => (i : Int) + (k : Int) + 1

lemma vsOf_cons (c : Char) (l : List Char) (i : ℕ) (vs : Int) :
    vsOf i vs (c :: l) =
      vsOf (i + 1) (if c = '[' then (i : Int) + 1 else vs) l := by
  cases hl : lastOpenIdx l with
  | some k =>
      simp only [vsOf, lastOpenIdx, hl]
      push_cast
      ring
  | none =>
      by_cases hc : c = '['
      · simp only [vsOf, lastOpenIdx, hl, hc, if_true]
        norm_num
      · simp only [vsOf, lastOpenIdx, hl, hc, if_false]

lemma getIndicesAux_eq : ∀ (l : List Char) (i : ℕ) (vs : Int),
    getIndicesAux l i vs =
      match firstCloseIdx l with
      | none => (vsOf i vs l, -1, -1)
      | some j =>
          (vsOf i vs (l.take j), (i : Int) + (j : Int), (i : Int) + (j : Int) + 2) := by
  intro l
  induction l with
  | nil => intro i vs; rfl
  | cons c rest ih =>
      intro i vs
      by_cases hc : c = ']'
      · subst hc
        have hcb : (']' : Char) ≠ '[' := by decide
        simp [getIndicesAux, firstCloseIdx, vsOf, lastOpenIdx, hcb]
      · simp only [getIndicesAux, firstCloseIdx, if_neg hc]
        rw [ih (i + 1) (if c = '[' then (i : Int) + 1 else vs)]
        cases hf : firstCloseIdx rest with
        | none =>
            rw [← vsOf_cons]
            simp
        | some j =>
            simp only [Option.map_some', List.take_succ_cons, Prod.mk.injEq]
            exact ⟨(vsOf_cons c (List.take j rest) i vs).symm,
              by push_cast; ring, by push_cast; ring⟩

/-- C4 counterexample: the claim's reading of `parse_server_info` fails in
two ways. With input "[]x" the computed span is empty, yet the parse
SUCCEEDS with an empty version (the code never checks the span, only that
the indices are non-negative). With input "a[b[1]X" the version is taken
from the LAST `'['` before the first `']'` (giving "1"), not from the first
`'['` (which would give `res[2:5] = "b[1"`). -/
theorem info_parse_cex :
    (info_parse "[]x").1 = some ⟨"", ""⟩ ∧
    (info_parse "a[b[1]X").1 = some ⟨"1", ""⟩ ∧
    pySlice "a[b[1]X" 2 5 = "b[1" ∧ ("1" : String) ≠ "b[1" := by decide

/-- C4 amended: for a non-empty Info response, the parse fails with the
unexpected-format message exactly when the string has no `']'`, or no `'['`
before its first `']'`; otherwise, with `j` the first `']'` index and `k`
the LAST `'['` index before it, it returns version `res[k+1:j]` (possibly
empty - an empty span is not an error) and name `res[j+2:]`. -/
theorem info_parse_amended :
    (∀ res : String, res ≠ "" → firstCloseIdx res.data = none →
      info_parse res =
        (none, "Unable to process your request (server response in unexpected format)"))
    ∧ (∀ (res : String) (j : ℕ), res ≠ "" → firstCloseIdx res.data = some j →
        lastOpenIdx (res.data.take j) = none →
        info_parse res =
          (none, "Unable to process your request (server response in unexpected format)"))
    ∧ (∀ (res : String) (j k : ℕ), res ≠ "" → firstCloseIdx res.data = some j →
        lastOpenIdx (res.data.take j) = some k →
        info_parse res =
          (some ⟨pySlice res (k + 1) j, pySliceFrom res (j + 2)⟩, "")) := by
  refine ⟨?_, ?_, ?_⟩
  · intro res hres hf
    have hidx := getIndicesAux_eq res.data 0 (-1)
    rw [hf] at hidx
    simp only [] at hidx
    unfold info_parse get_indices_from_info
    rw [if_neg hres, hidx]
    simp
  · intro res j hres hf hl
    have hidx := getIndicesAux_eq res.data 0 (-1)
    rw [hf] at hidx
    simp only [] at hidx
    have hv : vsOf 0 (-1) (res.data.take j) = -1 := by
      unfold vsOf
      rw [hl]
    rw [hv] at hidx
    unfold info_parse get_indices_from_info
    rw [if_neg hres, hidx]
    simp
  · intro res j k hres hf hl
    have hidx := getIndicesAux_eq res.data 0 (-1)
    rw [hf] at hidx
    simp only [] at hidx
    have hv : vsOf 0 (-1) (res.data.take j) = (k : ℤ) + 1 := by
      unfold vsOf
      rw [hl]
      norm_num
    rw [hv] at hidx
    norm_num at hidx
    unfold info_parse get_indices_from_info
    rw [if_neg hres, hidx]
    simp only []
    have hcond : ¬ (((k : ℤ) + 1 < 0) ∨ ((j : ℤ) < 0) ∨ ((j : ℤ) + 2 < 0)) := by
      omega
    rw [if_neg hcond]
    have e1 : ((k : ℤ) + 1).toNat = k + 1 := by omega
    have e2 : ((j : ℤ)).toNat = j := by omega
    have e3 : ((j : ℤ) + 2).toNat = j + 2 := by omega
    rw [e1, e2, e3]

/-- C4 witness: the amended theorem applied to the spec's own examples. -/
theorem info_parse_amended_witness :
    info_parse "[1.2.3] MyServer" = (some ⟨"1.2.3", "MyServer"⟩, "") ∧
    info_parse "no brackets here" =
      (none, "Unable to process your request (server response in unexpected format)") := by
  constructor
  · exact (info_parse_amended.2.2 "[1.2.3] MyServer" 6 0 (by decide) (by decide)
      (by decide)).trans (by decide)
  · exact info_parse_amended.1 "no brackets here" (by decide) (by decide)
